import Mathlib

/-!
Shallow embedding of `src/auto_switch.py` (the `WaterHeaterController` daemon).

The controller's mutable fields become the structure `CState`; the D-Bus
registry is modelled as an oracle supplied to each timer callback: a read
outcome `ReadRes` (object missing, `GetValue` raised, or a value) and a
write outcome `WriteRes` (object missing, `SetValue` raised, or success).
Each timer callback of the Python class becomes a function
`CState → oracle → CState × Bool × List LogEvent × List Effect`, where the
`Bool` is the GLib timeout return value (`true` keeps the timer armed,
`false` cancels it), `LogEvent` records the `logging` calls made during the
tick in order, and `Effect` records relay-write requests and timer arming.
-/

namespace AutoSwitch

/-- `TARGET_CUSTOM_NAMES` from the source: labels the locator accepts. -/
def TARGET_CUSTOM_NAMES : List String := ["AC Water Heater", "AC WH"]

/-- `MAX_RELAY_NUMBER_TO_CHECK` from the source. -/
def MAX_RELAY_NUMBER_TO_CHECK : Nat := 10

/-- Outcome of a D-Bus read (`_get_dbus_object` then `GetValue`):
the object was not found, the object was found but `GetValue` raised,
or a value came back. -/
inductive ReadRes (α : Type) where
  | noObject : ReadRes α
  | getFailed : ReadRes α
  | ok (v : α) : ReadRes α
deriving DecidableEq, Repr

/-- Outcome of a D-Bus relay write (`_get_dbus_object` then `SetValue`). -/
inductive WriteRes where
  | noObject : WriteRes
  | setFailed : WriteRes
  | okWrite : WriteRes
deriving DecidableEq, Repr

/-- One `logging` call of the Python source, in abstract form. -/
inductive LogEvent where
  /-- `logging.error` in `_get_dbus_value` when `GetValue` raises. -/
  | errorGetValue : LogEvent
  /-- `logging.info` in `_set_relay_state` on success. -/
  | infoSetRelay (n : Nat) (v : Int) : LogEvent
  /-- `logging.error` in `_set_relay_state` when `SetValue` raises. -/
  | errorSetRelay (n : Nat) : LogEvent
  /-- "Attempting to find water heater relay..." -/
  | infoFindAttempt : LogEvent
  /-- "Found Water Heater Relay: Number n" -/
  | infoFoundRelay (n : Nat) : LogEvent
  /-- "Water heater relay not found yet. Will retry..." -/
  | infoRetryNotFound : LogEvent
  /-- "AC input source is now available for initial state setting. ..." -/
  | infoInitAvailableAgain : LogEvent
  /-- "Initial AC input source: s" -/
  | infoInitialSource (s : String) : LogEvent
  /-- "AC input source not available for initial state setting. Retrying..." -/
  | warnInitUnavailable : LogEvent
  /-- "AC input source is now available during monitoring. ..." -/
  | infoMonitorAvailableAgain : LogEvent
  /-- "AC Input Source changed to: s (Value: v)" -/
  | infoSourceChanged (s : String) (v : Int) : LogEvent
  /-- "Could not read AC input source during monitoring. Retrying..." -/
  | warnMonitorUnavailable : LogEvent
deriving DecidableEq, Repr

/-- Externally visible actions of a tick other than logging: a relay write
request handed to `_set_relay_state` with a located relay number (issued
whether or not the registry accepts it), and `GLib.timeout_add_seconds`
arming a timer. -/
inductive Effect where
  | relayWrite (n : Nat) (v : Int) : Effect
  | armInitTimer : Effect
  | armMonitorTimer : Effect
deriving DecidableEq, Repr

/-- The mutable fields of `WaterHeaterController`. -/
structure CState where
  water_heater_relay_number : Option Nat
  previous_ac_source : Option Int
  initial_state_set : Bool
  relay_found : Bool
  ac_source_unavailable_warning_logged : Bool
deriving DecidableEq, Repr

/-- The state built by `WaterHeaterController.__init__`. -/
def initState : CState :=
  { water_heater_relay_number := none
    previous_ac_source := none
    initial_state_set := false
    relay_found := false
    ac_source_unavailable_warning_logged := false }

/-- `_get_dbus_value`: returns the value or `None`; logs an error only when
the object was found but `GetValue` raised. -/
def get_dbus_value {α : Type} : ReadRes α → Option α × List LogEvent
  | .noObject => (none, [])
  | .getFailed => (none, [.errorGetValue])
  | .ok v => (some v, [])

/-- `_set_relay_state`: with no located relay it does nothing; otherwise it
requests the write (recorded as a `relayWrite` effect), returning `true`
with an info log on success, `false` otherwise (with an error log when
`SetValue` raised). -/
def set_relay_state (relay_number : Option Nat) (value : Int) (w : WriteRes) :
    Bool × List LogEvent × List Effect :=
  match relay_number with
  | none => (false, [], [])
  | some n =>
    match w with
    | .noObject => (false, [], [.relayWrite n value])
    | .setFailed => (false, [.errorSetRelay n], [.relayWrite n value])
    | .okWrite => (true, [.infoSetRelay n value], [.relayWrite n value])

/-- `_interpret_ac_source`: pure classification of the integer source code. -/
def interpret_ac_source (value : Int) : String :=
  if value = 0 then "Unavailable"
  else if value = 1 then "Grid"
  else if value = 2 then "Generator"
  else if value = 3 ∨ value = 4 then "Shore"
  else if value = 240 then "Inverting"
  else "Unknown (" ++ toString value ++ ")"

/-- The on/off rule shared by the initializer and the monitor:
`1` when the classified text is in `["Grid", "Shore"]`, else `0`. -/
def relay_command (source_text : String) : Int :=
  if source_text ∈ (["Grid", "Shore"] : List String) then 1 else 0

/-- The scanning loop of `_find_water_heater_relay` over a list of slot ids:
read each slot's CustomName; a readable name in `TARGET_CUSTOM_NAMES` stops
the scan at that slot (Python `break`-by-return); an unreadable name (which
Python sees as `None`, never a member) or a non-matching name continues. -/
def relay_scan (labels : Nat → ReadRes String) : List Nat → Option Nat × List LogEvent
  | [] => (none, [])
  | n :: rest =>
    let (custom_name, logs) := get_dbus_value (labels n)
    match custom_name with
    | some name =>
      if name ∈ TARGET_CUSTOM_NAMES then
        (some n, logs ++ [.infoFoundRelay n])
      else
        let next := relay_scan labels rest
        (next.1, logs ++ next.2)
    | none =>
      let next := relay_scan labels rest
      (next.1, logs ++ next.2)

/-- `_find_water_heater_relay`: once `relay_found` it returns `False`
immediately; otherwise it scans slots `0 .. MAX_RELAY_NUMBER_TO_CHECK - 1`,
records the first match, arms the initializer timer and cancels itself, or
logs a retry notice and keeps its timer armed. -/
def find_water_heater_relay (s : CState) (labels : Nat → ReadRes String) :
    CState × Bool × List LogEvent × List Effect :=
  if s.relay_found then (s, false, [], [])
  else
    let scanned := relay_scan labels (List.range MAX_RELAY_NUMBER_TO_CHECK)
    match scanned.1 with
    | some n =>
      ({ s with water_heater_relay_number := some n, relay_found := true },
       false, .infoFindAttempt :: scanned.2, [.armInitTimer])
    | none =>
      (s, true, .infoFindAttempt :: scanned.2 ++ [.infoRetryNotFound], [])

/-- `_initialize_monitoring`: guarded no-op returning `False` when the
initial state is already set or no relay is located; otherwise read the AC
source, and on success log recovery if suppressed, classify, request the
relay write, record `previous_ac_source`, mark the initial state set, arm
the monitor timer and cancel itself; on a failed read log the warning once
per episode and keep the timer armed. -/
def initialize_monitoring (s : CState) (read : ReadRes Int) (write : WriteRes) :
    CState × Bool × List LogEvent × List Effect :=
  if s.initial_state_set ∨ s.water_heater_relay_number = none then
    (s, false, [], [])
  else
    let r := get_dbus_value read
    match r.1 with
    | some v =>
      let recovery :=
        if s.ac_source_unavailable_warning_logged then
          ([LogEvent.infoInitAvailableAgain],
           { s with ac_source_unavailable_warning_logged := false })
        else (([] : List LogEvent), s)
      let source_text := interpret_ac_source v
      let written := set_relay_state recovery.2.water_heater_relay_number
        (relay_command source_text) write
      ({ recovery.2 with previous_ac_source := some v, initial_state_set := true },
       false,
       r.2 ++ recovery.1 ++ [.infoInitialSource source_text] ++ written.2.1,
       written.2.2 ++ [.armMonitorTimer])
    | none =>
      if s.ac_source_unavailable_warning_logged then
        (s, true, r.2, [])
      else
        ({ s with ac_source_unavailable_warning_logged := true },
         true, r.2 ++ [.warnInitUnavailable], [])

/-- `_monitor_ac_input_source`: guarded no-op returning `True` when the
initial state is not set or no relay is located; otherwise read the AC
source; on success log recovery if suppressed and, when the value differs
from `previous_ac_source`, classify, request the relay write and update
`previous_ac_source`; on a failed read log the warning once per episode.
Always returns `True`. -/
def monitor_ac_input_source (s : CState) (read : ReadRes Int) (write : WriteRes) :
    CState × Bool × List LogEvent × List Effect :=
  if ¬ s.initial_state_set ∨ s.water_heater_relay_number = none then
    (s, true, [], [])
  else
    let r := get_dbus_value read
    match r.1 with
    | some v =>
      let recovery :=
        if s.ac_source_unavailable_warning_logged then
          ([LogEvent.infoMonitorAvailableAgain],
           { s with ac_source_unavailable_warning_logged := false })
        else (([] : List LogEvent), s)
      if some v ≠ recovery.2.previous_ac_source then
        let source_text := interpret_ac_source v
        let written := set_relay_state recovery.2.water_heater_relay_number
          (relay_command source_text) write
        ({ recovery.2 with previous_ac_source := some v },
         true,
         r.2 ++ recovery.1 ++ [.infoSourceChanged source_text v] ++ written.2.1,
         written.2.2)
      else
        (recovery.2, true, r.2 ++ recovery.1, [])
    | none =>
      if s.ac_source_unavailable_warning_logged then
        (s, true, r.2, [])
      else
        ({ s with ac_source_unavailable_warning_logged := true },
         true, r.2 ++ [.warnMonitorUnavailable], [])

/-- One scheduler tick: which callback fired and the registry outcomes it
observed. -/
inductive TickInput where
  | locator (labels : Nat → ReadRes String) : TickInput
  | initializer (read : ReadRes Int) (write : WriteRes) : TickInput
  | monitor (read : ReadRes Int) (write : WriteRes) : TickInput

/-- Dispatch one tick. -/
def step (s : CState) : TickInput → CState × Bool × List LogEvent × List Effect
  | .locator labels => find_water_heater_relay s labels
  | .initializer r w => initialize_monitoring s r w
  | .monitor r w => monitor_ac_input_source s r w

/-- The controller state after a sequence of ticks. -/
def runSteps (s : CState) : List TickInput → CState
  | [] => s
  | t :: ts => runSteps (step s t).1 ts

/-- Whether an effect is a relay-write request. -/
def isRelayWrite : Effect → Bool
  | .relayWrite _ _ => true
  | _ => false

/-- Whether a log event is an AC-source-unavailable warning (initializer's
or monitor's). -/
def isUnavailWarning : LogEvent → Bool
  | .warnInitUnavailable => true
  | .warnMonitorUnavailable => true
  | _ => false

/-- Whether a log event is an availability-recovery note (initializer's or
monitor's). -/
def isRecoveryNote : LogEvent → Bool
  | .infoInitAvailableAgain => true
  | .infoMonitorAvailableAgain => true
  | _ => false

/-- Whether a probed slot's read outcome is a readable label in
`TARGET_CUSTOM_NAMES` (the locator's match test). -/
def matchesTarget : ReadRes String → Bool
  | .ok name => name ∈ TARGET_CUSTOM_NAMES
  | _ => false

/-- Per-tick relay-write-issued flags of a monitor run: feed the monitor one
read/write outcome per tick and record whether that tick issued a relay
write request. -/
def monitorTickWrites (s : CState) : List (ReadRes Int × WriteRes) → List Bool
  | [] => []
  | (r, w) :: rest =>
    let out := monitor_ac_input_source s r w
    out.2.2.2.any isRelayWrite :: monitorTickWrites out.1 rest

/-- Modelled from the spec's words (§8, write-triggering rule), for
comparison with `monitorTickWrites`: given the last successfully read value
`p`, a tick with a successful read issues a write exactly when its value
differs from the previous successfully read value, and a tick with a failed
read issues none. -/
def claimedWrites (p : Int) : List (ReadRes Int) → List Bool
  | [] => []
  | .ok v :: rest => decide (v ≠ p) :: claimedWrites v rest
  | .noObject :: rest => false :: claimedWrites p rest
  | .getFailed :: rest => false :: claimedWrites p rest

/-- Run one guarded tick function over a list of read/write outcomes,
accumulating the log events of every tick in order. -/
def runTicks
    (f : CState → ReadRes Int → WriteRes → CState × Bool × List LogEvent × List Effect)
    (s : CState) : List (ReadRes Int × WriteRes) → CState × List LogEvent
  | [] => (s, [])
  | (r, w) :: rest =>
    let out := f s r w
    let next := runTicks f out.1 rest
    (next.1, out.2.2.1 ++ next.2)

/-- Slot labels for the counterexample to the locator-silence claim: slot 0
exists but its `GetValue` raises; slot 1 carries a target label; all other
slots are missing. -/
def exLabels : Nat → ReadRes String := fun i =>
  if i = 0 then .getFailed
  else if i = 1 then .ok "AC Water Heater"
  else .noObject

/-- The spec's controller-state invariant: the initial state can only have
been set once a relay is located. -/
def stateInvariant (s : CState) : Prop :=
  s.initial_state_set = true → s.water_heater_relay_number ≠ none

/-! ### Classifier lemmas -/

theorem unknown_text_not_on (t : String) :
    ("Unknown (" ++ t ++ ")") ∉ (["Grid", "Shore"] : List String) := by
  intro h
  have h9 : ("Unknown (" : String).length = 9 := rfl
  have hp : (")" : String).length = 1 := rfl
  rcases List.mem_cons.mp h with h | h
  · have hl := congrArg String.length h
    rw [String.length_append, String.length_append, h9, hp] at hl
    have h4 : ("Grid" : String).length = 4 := rfl
    rw [h4] at hl
    omega
  · rcases List.mem_cons.mp h with h | h
    · have hl := congrArg String.length h
      rw [String.length_append, String.length_append, h9, hp] at hl
      have h5 : ("Shore" : String).length = 5 := rfl
      rw [h5] at hl
      omega
    · exact absurd h (List.not_mem_nil _)

theorem interpret_on_iff (v : Int) :
    (interpret_ac_source v ∈ (["Grid", "Shore"] : List String)) ↔
      (v = 1 ∨ v = 3 ∨ v = 4) := by
  unfold interpret_ac_source
  split_ifs with h0 h1 h2 h34 h240
  · subst h0; decide
  · subst h1; decide
  · subst h2; decide
  · rcases h34 with rfl | rfl <;> decide
  · subst h240
    constructor
    · intro h; exact absurd h (by decide)
    · intro h; exact absurd h (by decide)
  · constructor
    · intro h; exact absurd h (unknown_text_not_on _)
    · rintro (rfl | rfl | rfl)
      · exact absurd rfl h1
      · exact absurd (Or.inl rfl) h34
      · exact absurd (Or.inr rfl) h34

theorem relay_command_interpret (v : Int) :
    relay_command (interpret_ac_source v) =
      if v = 1 ∨ v = 3 ∨ v = 4 then 1 else 0 := by
  unfold relay_command
  by_cases h : v = 1 ∨ v = 3 ∨ v = 4
  · rw [if_pos ((interpret_on_iff v).mpr h), if_pos h]
  · rw [if_neg (fun hm => h ((interpret_on_iff v).mp hm)), if_neg h]

/-! ### Single-tick lemmas for the initializer -/

theorem initializer_ok_eq (n : Nat) (p : Option Int) (v : Int) (rf b : Bool)
    (w : WriteRes) :
    initialize_monitoring ⟨some n, p, false, rf, b⟩ (.ok v) w =
      (⟨some n, some v, true, rf, false⟩, false,
       (if b then [LogEvent.infoInitAvailableAgain] else []) ++
         [.infoInitialSource (interpret_ac_source v)] ++
         (set_relay_state (some n) (relay_command (interpret_ac_source v)) w).2.1,
       [.relayWrite n (relay_command (interpret_ac_source v)), .armMonitorTimer]) := by
  cases b <;> cases w <;>
    simp [initialize_monitoring, get_dbus_value, set_relay_state]

theorem initializer_fail_eq (n : Nat) (p : Option Int) (rf b : Bool)
    (r : ReadRes Int) (w : WriteRes) (hfail : (get_dbus_value r).1 = none) :
    initialize_monitoring ⟨some n, p, false, rf, b⟩ r w =
      (⟨some n, p, false, rf, true⟩, true,
       (get_dbus_value r).2 ++ (if b then [] else [LogEvent.warnInitUnavailable]),
       []) := by
  cases r with
  | ok v => simp [get_dbus_value] at hfail
  | noObject => cases b <;> simp [initialize_monitoring, get_dbus_value]
  | getFailed => cases b <;> simp [initialize_monitoring, get_dbus_value]

/-! ### Single-tick lemmas for the monitor -/

theorem monitor_ok_eq (n : Nat) (p v : Int) (rf b : Bool) (w : WriteRes) :
    monitor_ac_input_source ⟨some n, some p, true, rf, b⟩ (.ok v) w =
      (⟨some n, some v, true, rf, false⟩, true,
       (if b then [LogEvent.infoMonitorAvailableAgain] else []) ++
         (if v = p then [] else
           .infoSourceChanged (interpret_ac_source v) v ::
             (set_relay_state (some n) (relay_command (interpret_ac_source v)) w).2.1),
       if v = p then [] else
         [.relayWrite n (relay_command (interpret_ac_source v))]) := by
  by_cases hv : v = p <;> cases b <;> cases w <;>
    simp [monitor_ac_input_source, get_dbus_value, set_relay_state, hv]

theorem monitor_ok_none_eq (n : Nat) (v : Int) (rf b : Bool) (w : WriteRes) :
    monitor_ac_input_source ⟨some n, none, true, rf, b⟩ (.ok v) w =
      (⟨some n, some v, true, rf, false⟩, true,
       (if b then [LogEvent.infoMonitorAvailableAgain] else []) ++
         .infoSourceChanged (interpret_ac_source v) v ::
           (set_relay_state (some n) (relay_command (interpret_ac_source v)) w).2.1,
       [.relayWrite n (relay_command (interpret_ac_source v))]) := by
  cases b <;> cases w <;>
    simp [monitor_ac_input_source, get_dbus_value, set_relay_state]

theorem monitor_fail_eq (n : Nat) (po : Option Int) (rf b : Bool)
    (r : ReadRes Int) (w : WriteRes) (hfail : (get_dbus_value r).1 = none) :
    monitor_ac_input_source ⟨some n, po, true, rf, b⟩ r w =
      (⟨some n, po, true, rf, true⟩, true,
       (get_dbus_value r).2 ++ (if b then [] else [LogEvent.warnMonitorUnavailable]),
       []) := by
  cases r with
  | ok v => simp [get_dbus_value] at hfail
  | noObject => cases b <;> simp [monitor_ac_input_source, get_dbus_value]
  | getFailed => cases b <;> simp [monitor_ac_input_source, get_dbus_value]

theorem get_dbus_value_log_counts {α : Type} (r : ReadRes α) :
    (get_dbus_value r).2.countP isUnavailWarning = 0 ∧
    (get_dbus_value r).2.countP isRecoveryNote = 0 := by
  cases r <;> simp [get_dbus_value, isUnavailWarning, isRecoveryNote, List.countP_cons]

theorem set_relay_state_log_counts (rn : Option Nat) (v : Int) (w : WriteRes) :
    (set_relay_state rn v w).2.1.countP isUnavailWarning = 0 ∧
    (set_relay_state rn v w).2.1.countP isRecoveryNote = 0 := by
  cases rn <;> cases w <;>
    simp [set_relay_state, isUnavailWarning, isRecoveryNote, List.countP_cons]

/-! ### Claim theorems -/

/-- Claim C8: the classifier is the pure mapping 0 to Unavailable, 1 to
Grid, 2 to Generator, 3 and 4 to Shore, 240 to Inverting, and every other
integer to Unknown carrying the raw code; for codes outside
{0, 1, 2, 3, 4, 240} the derived relay command is off (0). -/
theorem c8_classifier (v : Int) :
    interpret_ac_source 0 = "Unavailable" ∧
    interpret_ac_source 1 = "Grid" ∧
    interpret_ac_source 2 = "Generator" ∧
    interpret_ac_source 3 = "Shore" ∧
    interpret_ac_source 4 = "Shore" ∧
    interpret_ac_source 240 = "Inverting" ∧
    (v ∉ ([0, 1, 2, 3, 4, 240] : List Int) →
      interpret_ac_source v = "Unknown (" ++ toString v ++ ")" ∧
      relay_command (interpret_ac_source v) = 0) := by
  refine ⟨rfl, rfl, rfl, rfl, rfl, rfl, ?_⟩
  intro hv
  simp only [List.mem_cons, List.not_mem_nil, or_false, not_or] at hv
  obtain ⟨n0, n1, n2, n3, n4, n240⟩ := hv
  constructor
  · unfold interpret_ac_source
    rw [if_neg n0, if_neg n1, if_neg n2, if_neg (by tauto), if_neg n240]
  · rw [relay_command_interpret, if_neg (by tauto)]

/-- Witness for C8 at the unknown code 7. -/
theorem c8_classifier_witness :
    (7 : Int) ∉ ([0, 1, 2, 3, 4, 240] : List Int) ∧
    (interpret_ac_source 7 = "Unknown (" ++ toString (7 : Int) ++ ")" ∧
      relay_command (interpret_ac_source 7) = 0) :=
  ⟨by decide, (c8_classifier 7).2.2.2.2.2.2 (by decide)⟩

/-- Claim C3: the relay command derived by both the initializer and the
monitor is on (write value 1) iff the source code is in {1, 3, 4}, and off
(write value 0) for every other code; both ticks request exactly that
command of the located relay. -/
theorem c3_on_off_rule (v : Int) (n : Nat) (p q : Option Int) (rf b : Bool)
    (w : WriteRes) :
    (relay_command (interpret_ac_source v) = 1 ↔ (v = 1 ∨ v = 3 ∨ v = 4)) ∧
    (¬ (v = 1 ∨ v = 3 ∨ v = 4) → relay_command (interpret_ac_source v) = 0) ∧
    (initialize_monitoring ⟨some n, p, false, rf, b⟩ (.ok v) w).2.2.2 =
      [.relayWrite n (relay_command (interpret_ac_source v)), .armMonitorTimer] ∧
    (∀ p2 : Int, q = some p2 → v ≠ p2 →
      (monitor_ac_input_source ⟨some n, q, true, rf, b⟩ (.ok v) w).2.2.2 =
        [.relayWrite n (relay_command (interpret_ac_source v))]) := by
  refine ⟨?_, ?_, ?_, ?_⟩
  · rw [relay_command_interpret]
    by_cases h : v = 1 ∨ v = 3 ∨ v = 4
    · simp [h]
    · simp [h]
  · intro h
    rw [relay_command_interpret, if_neg h]
  · rw [initializer_ok_eq]
  · rintro p2 rfl hv
    rw [monitor_ok_eq]
    simp [hv]

/-- Witness for C3 at code 3 (Shore, on) against relay 2. -/
theorem c3_on_off_rule_witness :
    (relay_command (interpret_ac_source 3) = 1 ↔
      ((3 : Int) = 1 ∨ (3 : Int) = 3 ∨ (3 : Int) = 4)) ∧
    (monitor_ac_input_source ⟨some 2, some 0, true, true, false⟩ (.ok 3)
        .okWrite).2.2.2 =
      [.relayWrite 2 (relay_command (interpret_ac_source 3))] := by
  have h := c3_on_off_rule 3 2 none (some 0) true false .okWrite
  exact ⟨h.1, h.2.2.2 0 rfl (by decide)⟩

/-- Claim C10: an initializer tick with no located relay or with the
initial state already set reads and writes nothing, changes no state, and
returns the termination signal (`false`), disarming its own timer; the
monitor's guard instead returns `true`, keeping its timer armed. -/
theorem c10_guards (s : CState) (r : ReadRes Int) (w : WriteRes)
    (h : s.water_heater_relay_number = none ∨ s.initial_state_set = true) :
    initialize_monitoring s r w = (s, false, [], []) ∧
    (s.initial_state_set = false ∨ s.water_heater_relay_number = none →
      monitor_ac_input_source s r w = (s, true, [], [])) := by
  constructor
  · unfold initialize_monitoring
    rcases h with h | h
    · rw [if_pos (Or.inr h)]
    · rw [if_pos (Or.inl h)]
  · intro h2
    unfold monitor_ac_input_source
    rcases h2 with h2 | h2
    · rw [if_pos (Or.inl (by simp [h2]))]
    · rw [if_pos (Or.inr h2)]

/-- Witness for C10 in the freshly constructed state (no relay located). -/
theorem c10_guards_witness :
    initialize_monitoring initState ReadRes.noObject WriteRes.okWrite =
      (initState, false, [], []) ∧
    monitor_ac_input_source initState ReadRes.noObject WriteRes.okWrite =
      (initState, true, [], []) := by
  have h := c10_guards initState ReadRes.noObject WriteRes.okWrite (Or.inl rfl)
  exact ⟨h.1, h.2 (Or.inl rfl)⟩

/-- Claim C5: a monitor tick whose AC source read fails issues no relay
write, leaves `previous_ac_source`, `initial_state_set`, the located relay
number and `relay_found` unchanged, and keeps the timer armed; only the
warning-suppression flag may change. -/
theorem c5_read_failure_frame (s : CState) (r : ReadRes Int) (w : WriteRes)
    (hfail : (get_dbus_value r).1 = none) :
    (monitor_ac_input_source s r w).2.2.2 = [] ∧
    (monitor_ac_input_source s r w).1.previous_ac_source =
      s.previous_ac_source ∧
    (monitor_ac_input_source s r w).1.initial_state_set =
      s.initial_state_set ∧
    (monitor_ac_input_source s r w).1.water_heater_relay_number =
      s.water_heater_relay_number ∧
    (monitor_ac_input_source s r w).1.relay_found = s.relay_found ∧
    (monitor_ac_input_source s r w).2.1 = true := by
  cases r with
  | ok v => simp [get_dbus_value] at hfail
  | noObject =>
    unfold monitor_ac_input_source
    split_ifs <;> simp [get_dbus_value]
  | getFailed =>
    unfold monitor_ac_input_source
    split_ifs <;> simp [get_dbus_value]

/-- Witness for C5 with an unreadable source in a monitoring state. -/
theorem c5_read_failure_frame_witness :
    (monitor_ac_input_source ⟨some 1, some 1, true, true, false⟩
        ReadRes.getFailed WriteRes.okWrite).2.2.2 = [] ∧
    (monitor_ac_input_source ⟨some 1, some 1, true, true, false⟩
        ReadRes.getFailed WriteRes.okWrite).1.previous_ac_source = some 1 :=
  ⟨(c5_read_failure_frame ⟨some 1, some 1, true, true, false⟩ .getFailed
      .okWrite rfl).1,
   (c5_read_failure_frame ⟨some 1, some 1, true, true, false⟩ .getFailed
      .okWrite rfl).2.1⟩

/-- Claim C6: on a monitor tick with a successful read of a changed value,
`previous_ac_source` advances to the newly observed value for every write
outcome, including failed writes. -/
theorem c6_baseline_advances (s : CState) (n : Nat) (v : Int) (w : WriteRes)
    (h1 : s.initial_state_set = true)
    (h2 : s.water_heater_relay_number = some n)
    (h3 : some v ≠ s.previous_ac_source) :
    (monitor_ac_input_source s (.ok v) w).1.previous_ac_source = some v := by
  obtain ⟨rn, p, iss, rf, b⟩ := s
  simp only at h1 h2 h3
  subst h1 h2
  cases b <;> simp [monitor_ac_input_source, get_dbus_value, h3]

/-- Witness for C6: the baseline advances even though the write fails. -/
theorem c6_baseline_advances_witness :
    (monitor_ac_input_source ⟨some 0, some 1, true, true, false⟩ (.ok 3)
        WriteRes.setFailed).1.previous_ac_source = some 3 :=
  c6_baseline_advances ⟨some 0, some 1, true, true, false⟩ 0 3 .setFailed
    rfl rfl (by decide)

/-- Counterexample to claim C2: with a readable source but a relay write
that fails (`SetValue` raises, `_set_relay_state` returns `False`), the
initializer still cancels its own timer, records `previous_ac_source` and
marks the initial state set — it does not keep retrying until a successful
relay write. -/
theorem c2_counterexample :
    (set_relay_state (some 0) (relay_command (interpret_ac_source 1))
        WriteRes.setFailed).1 = false ∧
    (initialize_monitoring ⟨some 0, none, false, true, false⟩ (.ok 1)
        WriteRes.setFailed).2.1 = false ∧
    (initialize_monitoring ⟨some 0, none, false, true, false⟩ (.ok 1)
        WriteRes.setFailed).1.initial_state_set = true ∧
    (initialize_monitoring ⟨some 0, none, false, true, false⟩ (.ok 1)
        WriteRes.setFailed).1.previous_ac_source = some 1 := by
  refine ⟨rfl, ?_, ?_, ?_⟩ <;> rw [initializer_ok_eq]

/-- Claim C2 (amended): the initializer keeps retrying on its timer until
its first successful READ of the AC source; on that tick it issues exactly
one relay write request (whether or not the registry accepts it), records
`previous_ac_source`, marks the initial state set, arms the monitor timer
and cancels itself permanently; while reads fail, `previous_ac_source`
stays undefined (unchanged) and the initial state stays unset. -/
theorem c2_initializer_handoff (s : CState) (n : Nat) (r : ReadRes Int)
    (w : WriteRes) (h1 : s.initial_state_set = false)
    (h2 : s.water_heater_relay_number = some n) :
    ((get_dbus_value r).1 = none →
      (initialize_monitoring s r w).2.1 = true ∧
      (initialize_monitoring s r w).1.previous_ac_source =
        s.previous_ac_source ∧
      (initialize_monitoring s r w).1.initial_state_set = false ∧
      (initialize_monitoring s r w).2.2.2 = []) ∧
    (∀ v : Int, r = .ok v →
      (initialize_monitoring s r w).2.1 = false ∧
      (initialize_monitoring s r w).1.previous_ac_source = some v ∧
      (initialize_monitoring s r w).1.initial_state_set = true ∧
      (initialize_monitoring s r w).2.2.2 =
        [.relayWrite n (relay_command (interpret_ac_source v)),
         .armMonitorTimer]) := by
  obtain ⟨rn, p, iss, rf, b⟩ := s
  simp only at h1 h2
  subst h1 h2
  constructor
  · intro hfail
    rw [initializer_fail_eq n p rf b r w hfail]
    exact ⟨rfl, rfl, rfl, rfl⟩
  · rintro v rfl
    rw [initializer_ok_eq]
    exact ⟨rfl, rfl, rfl, rfl⟩

/-- Witness for the amended C2: a failed read keeps retrying, a successful
read hands off, at concrete inputs. -/
theorem c2_initializer_handoff_witness :
    (initialize_monitoring ⟨some 0, none, false, true, false⟩
        ReadRes.noObject WriteRes.okWrite).2.1 = true ∧
    (initialize_monitoring ⟨some 0, none, false, true, false⟩ (.ok 2)
        WriteRes.noObject).1.previous_ac_source = some 2 :=
  ⟨((c2_initializer_handoff ⟨some 0, none, false, true, false⟩ 0
      .noObject .okWrite rfl rfl).1 rfl).1,
   ((c2_initializer_handoff ⟨some 0, none, false, true, false⟩ 0
      (.ok 2) .noObject rfl rfl).2 2 rfl).2.1⟩

/-! ### Locator scan lemmas -/

theorem relay_scan_cons_hit (labels : Nat → ReadRes String) (a : Nat)
    (l : List Nat) (hhit : matchesTarget (labels a) = true) :
    (relay_scan labels (a :: l)).1 = some a := by
  cases hL : labels a with
  | ok name =>
    have hm : name ∈ TARGET_CUSTOM_NAMES := by
      simpa [matchesTarget, hL] using hhit
    simp [relay_scan, get_dbus_value, hL, hm]
  | noObject => simp [matchesTarget, hL] at hhit
  | getFailed => simp [matchesTarget, hL] at hhit

theorem relay_scan_cons_skip (labels : Nat → ReadRes String) (a : Nat)
    (l : List Nat) (hskip : matchesTarget (labels a) = false) :
    (relay_scan labels (a :: l)).1 = (relay_scan labels l).1 := by
  cases hL : labels a with
  | ok name =>
    have hm : name ∉ TARGET_CUSTOM_NAMES := by
      simpa [matchesTarget, hL] using hskip
    simp [relay_scan, get_dbus_value, hL, hm]
  | noObject => simp [relay_scan, get_dbus_value, hL]
  | getFailed => simp [relay_scan, get_dbus_value, hL]

theorem relay_scan_some_iff (labels : Nat → ReadRes String) :
    ∀ (len a n : Nat),
      (relay_scan labels (List.range' a len)).1 = some n ↔
        (a ≤ n ∧ n < a + len ∧ matchesTarget (labels n) = true ∧
          ∀ m, a ≤ m → m < n → matchesTarget (labels m) = false) := by
  intro len
  induction len with
  | zero =>
    intro a n
    rw [List.range'_zero]
    constructor
    · intro h; exact absurd h (by simp [relay_scan])
    · rintro ⟨h1, h2, _, _⟩; omega
  | succ k ih =>
    intro a n
    rw [List.range'_succ]
    by_cases ha : matchesTarget (labels a) = true
    · rw [relay_scan_cons_hit labels a _ ha]
      constructor
      · intro h
        have han : a = n := by simpa using h
        subst han
        exact ⟨Nat.le_refl a, by omega, ha, fun m h1 h2 => absurd h2 (by omega)⟩
      · rintro ⟨h1, h2, h3, h4⟩
        by_cases han : n = a
        · rw [han]
        · have hfa := h4 a (Nat.le_refl a) (by omega)
          rw [ha] at hfa
          cases hfa
    · rw [Bool.not_eq_true] at ha
      rw [relay_scan_cons_skip labels a _ ha, ih (a + 1) n]
      constructor
      · rintro ⟨h1, h2, h3, h4⟩
        refine ⟨by omega, by omega, h3, ?_⟩
        intro m hma hmn
        rcases Nat.eq_or_lt_of_le hma with rfl | hlt
        · exact ha
        · exact h4 m (by omega) hmn
      · rintro ⟨h1, h2, h3, h4⟩
        have hna : n ≠ a := by
          rintro rfl
          rw [h3] at ha
          cases ha
        exact ⟨by omega, by omega, h3, fun m h5 h6 => h4 m (by omega) h6⟩

theorem relay_scan_silent (labels : Nat → ReadRes String) :
    ∀ l : List Nat, (∀ m ∈ l, labels m ≠ .getFailed) →
      LogEvent.errorGetValue ∉ (relay_scan labels l).2 := by
  intro l
  induction l with
  | nil => intro _; simp [relay_scan]
  | cons a rest ih =>
    intro hl
    have ha : labels a ≠ .getFailed := hl a (List.mem_cons_self _ _)
    have ih' := ih (fun m hm => hl m (List.mem_cons_of_mem _ hm))
    cases hL : labels a with
    | ok name =>
      by_cases hm : name ∈ TARGET_CUSTOM_NAMES
      · simp [relay_scan, get_dbus_value, hL, hm]
      · simp [relay_scan, get_dbus_value, hL, hm, ih']
    | noObject => simp [relay_scan, get_dbus_value, hL, ih']
    | getFailed => exact absurd hL ha

/-- Counterexample to claim C7: slot 0's label read fails at the
`GetValue` stage and is NOT silent — the locator logs an error for that
slot — although scanning does continue and slot 1 is selected. -/
theorem c7_counterexample :
    (find_water_heater_relay initState exLabels).1.water_heater_relay_number =
      some 1 ∧
    LogEvent.errorGetValue ∈ (find_water_heater_relay initState exLabels).2.2.1 := by
  decide

/-- Claim C7 (amended): each locator scan probes slots `0` through
`MAX_RELAY_NUMBER_TO_CHECK - 1` in increasing order and returns the first
(lowest-id) slot whose label is readable and in the target set, ignoring
later duplicates; a failed read is treated as no-match-and-continue; a
read that fails because the slot object is missing is silent, but a read
that fails at the `GetValue` stage logs an error for that slot. -/
theorem c7_locator_scan (labels : Nat → ReadRes String) (n : Nat) :
    ((relay_scan labels (List.range MAX_RELAY_NUMBER_TO_CHECK)).1 = some n ↔
      (n < MAX_RELAY_NUMBER_TO_CHECK ∧ matchesTarget (labels n) = true ∧
        ∀ m, m < n → matchesTarget (labels m) = false)) ∧
    ((∀ m, m < MAX_RELAY_NUMBER_TO_CHECK → labels m ≠ .getFailed) →
      LogEvent.errorGetValue ∉
        (relay_scan labels (List.range MAX_RELAY_NUMBER_TO_CHECK)).2) := by
  constructor
  · rw [List.range_eq_range' MAX_RELAY_NUMBER_TO_CHECK,
      relay_scan_some_iff labels MAX_RELAY_NUMBER_TO_CHECK 0 n]
    constructor
    · rintro ⟨_, h2, h3, h4⟩
      exact ⟨by omega, h3, fun m hm => h4 m (Nat.zero_le m) hm⟩
    · rintro ⟨h1, h2, h3⟩
      exact ⟨Nat.zero_le n, by omega, h2, fun m _ hm => h3 m hm⟩
  · intro hs
    exact relay_scan_silent labels _ (fun m hm => hs m (List.mem_range.mp hm))

/-- Witness for the amended C7: the characterization at the counterexample
labels, and silence when every slot object is merely missing. -/
theorem c7_locator_scan_witness :
    ((relay_scan exLabels (List.range MAX_RELAY_NUMBER_TO_CHECK)).1 = some 1 ↔
      (1 < MAX_RELAY_NUMBER_TO_CHECK ∧ matchesTarget (exLabels 1) = true ∧
        ∀ m, m < 1 → matchesTarget (exLabels m) = false)) ∧
    LogEvent.errorGetValue ∉
      (relay_scan (fun _ => ReadRes.noObject)
        (List.range MAX_RELAY_NUMBER_TO_CHECK)).2 :=
  ⟨(c7_locator_scan exLabels 1).1,
   (c7_locator_scan (fun _ => ReadRes.noObject) 1).2
     (fun m _ h => ReadRes.noConfusion h)⟩

/-! ### Reachable-state invariant -/

theorem find_fields (s : CState) (labels : Nat → ReadRes String) :
    (find_water_heater_relay s labels).1.initial_state_set =
      s.initial_state_set ∧
    ((find_water_heater_relay s labels).1.water_heater_relay_number =
        s.water_heater_relay_number ∨
      (find_water_heater_relay s labels).1.water_heater_relay_number ≠ none) := by
  obtain ⟨rn, p, iss, rf, b⟩ := s
  unfold find_water_heater_relay
  split_ifs
  · exact ⟨rfl, Or.inl rfl⟩
  · cases hscan : (relay_scan labels (List.range MAX_RELAY_NUMBER_TO_CHECK)).1 with
    | none => simp [hscan]
    | some m => simp [hscan]

theorem initializer_fields (s : CState) (r : ReadRes Int) (w : WriteRes) :
    (initialize_monitoring s r w).1.water_heater_relay_number =
      s.water_heater_relay_number ∧
    ((initialize_monitoring s r w).1.initial_state_set = true →
      s.initial_state_set = true ∨ s.water_heater_relay_number ≠ none) := by
  obtain ⟨rn, p, iss, rf, b⟩ := s
  by_cases hg : iss = true ∨ rn = none
  · have heq : initialize_monitoring ⟨rn, p, iss, rf, b⟩ r w =
        (⟨rn, p, iss, rf, b⟩, false, [], []) := by
      unfold initialize_monitoring
      exact if_pos hg
    rw [heq]
    exact ⟨rfl, fun h => Or.inl h⟩
  · have hiss : iss = false := by
      cases iss
      · rfl
      · exact absurd (Or.inl rfl) hg
    have hrn : rn ≠ none := fun hn => hg (Or.inr hn)
    obtain ⟨n, rfl⟩ : ∃ n, rn = some n := by
      cases rn
      · exact absurd rfl hrn
      · exact ⟨_, rfl⟩
    subst hiss
    cases r with
    | ok v =>
      rw [initializer_ok_eq]
      exact ⟨rfl, fun _ => Or.inr (by simp)⟩
    | noObject =>
      rw [initializer_fail_eq n p rf b _ w (by simp [get_dbus_value])]
      exact ⟨rfl, fun h => nomatch h⟩
    | getFailed =>
      rw [initializer_fail_eq n p rf b _ w (by simp [get_dbus_value])]
      exact ⟨rfl, fun h => nomatch h⟩

theorem monitor_fields (s : CState) (r : ReadRes Int) (w : WriteRes) :
    (monitor_ac_input_source s r w).1.water_heater_relay_number =
      s.water_heater_relay_number ∧
    (monitor_ac_input_source s r w).1.initial_state_set =
      s.initial_state_set := by
  obtain ⟨rn, p, iss, rf, b⟩ := s
  by_cases hg : ¬ iss = true ∨ rn = none
  · have heq : monitor_ac_input_source ⟨rn, p, iss, rf, b⟩ r w =
        (⟨rn, p, iss, rf, b⟩, true, [], []) := by
      unfold monitor_ac_input_source
      exact if_pos hg
    rw [heq]
    exact ⟨rfl, rfl⟩
  · have hiss : iss = true := by
      cases iss
      · exact absurd (Or.inl (by simp)) hg
      · rfl
    have hrn : rn ≠ none := fun hn => hg (Or.inr hn)
    obtain ⟨n, rfl⟩ : ∃ n, rn = some n := by
      cases rn
      · exact absurd rfl hrn
      · exact ⟨_, rfl⟩
    subst hiss
    cases r with
    | ok v =>
      cases p with
      | none =>
        rw [monitor_ok_none_eq]
        exact ⟨rfl, rfl⟩
      | some p2 =>
        rw [monitor_ok_eq]
        exact ⟨rfl, rfl⟩
    | noObject =>
      rw [monitor_fail_eq n p rf b _ w (by simp [get_dbus_value])]
      exact ⟨rfl, rfl⟩
    | getFailed =>
      rw [monitor_fail_eq n p rf b _ w (by simp [get_dbus_value])]
      exact ⟨rfl, rfl⟩

theorem step_preserves_located (s : CState) (t : TickInput)
    (h : stateInvariant s) : stateInvariant (step s t).1 := by
  cases t with
  | locator labels =>
    simp only [step]
    have hf := find_fields s labels
    intro hI
    rcases hf.2 with he | hne
    · rw [he]
      exact h (by rw [← hf.1]; exact hI)
    · exact hne
  | initializer r w =>
    simp only [step]
    have hf := initializer_fields s r w
    intro hI
    rcases hf.2 hI with hI' | hne
    · rw [hf.1]
      exact h hI'
    · rw [hf.1]
      exact hne
  | monitor r w =>
    simp only [step]
    have hf := monitor_fields s r w
    intro hI
    rw [hf.1]
    exact h (by rw [← hf.2]; exact hI)

theorem runSteps_preserves_located (inputs : List TickInput) :
    ∀ s : CState, stateInvariant s → stateInvariant (runSteps s inputs) := by
  induction inputs with
  | nil => exact fun s h => h
  | cons t ts ih => exact fun s h => ih (step s t).1 (step_preserves_located s t h)

/-- Claim C9: in every state reachable by any sequence of locator,
initializer and monitor ticks from the freshly constructed state,
`initial_state_set = true` implies that a relay has been located. -/
theorem c9_located_before_set (inputs : List TickInput)
    (h : (runSteps initState inputs).initial_state_set = true) :
    (runSteps initState inputs).water_heater_relay_number ≠ none :=
  runSteps_preserves_located inputs initState (fun hI => Bool.noConfusion hI) h

/-! ### Monitor trace lemmas: writes happen exactly on value changes -/

theorem monitorTickWrites_eq (n : Nat) (rf : Bool) :
    ∀ (inputs : List (ReadRes Int × WriteRes)) (p : Int) (b : Bool),
      monitorTickWrites ⟨some n, some p, true, rf, b⟩ inputs =
        claimedWrites p (inputs.map Prod.fst) := by
  intro inputs
  induction inputs with
  | nil => intro p b; rfl
  | cons x rest ih =>
    intro p b
    obtain ⟨r, w⟩ := x
    cases r with
    | ok v =>
      simp only [monitorTickWrites, monitor_ok_eq, List.map_cons]
      by_cases hv : v = p
      · subst hv
        simp [claimedWrites, ih]
      · simp [claimedWrites, hv, ih, isRelayWrite]
    | noObject =>
      simp only [monitorTickWrites,
        monitor_fail_eq n (some p) rf b .noObject w (by simp [get_dbus_value]),
        List.map_cons]
      simp [claimedWrites, ih]
    | getFailed =>
      simp only [monitorTickWrites,
        monitor_fail_eq n (some p) rf b .getFailed w (by simp [get_dbus_value]),
        List.map_cons]
      simp [claimedWrites, ih]

/-- Claim C1: after the locator has found relay `n`, the first readable AC
source value `v0` makes the initializer issue exactly one relay write
request, failed initializer reads issue none, and from then on the per-tick
write-issued flags of the monitor equal the spec's rule: a write happens at
a successfully-read value iff it differs (as a raw value) from the previous
successfully-read value, and never on a failed read. -/
theorem c1_write_iff_change (n : Nat) (p : Option Int) (rf b : Bool)
    (v0 : Int) (w0 : WriteRes) (inputs : List (ReadRes Int × WriteRes)) :
    (initialize_monitoring ⟨some n, p, false, rf, b⟩ (.ok v0) w0).2.2.2.countP
        isRelayWrite = 1 ∧
    (∀ r : ReadRes Int, (get_dbus_value r).1 = none →
      (initialize_monitoring ⟨some n, p, false, rf, b⟩ r w0).2.2.2 = []) ∧
    monitorTickWrites
        (initialize_monitoring ⟨some n, p, false, rf, b⟩ (.ok v0) w0).1 inputs =
      claimedWrites v0 (inputs.map Prod.fst) := by
  refine ⟨?_, ?_, ?_⟩
  · rw [initializer_ok_eq]
    simp [List.countP_cons, isRelayWrite]
  · intro r hr
    rw [initializer_fail_eq n p rf b r w0 hr]
  · rw [initializer_ok_eq]
    exact monitorTickWrites_eq n rf inputs v0 false

/-- Witness for C1: the spec's scenario 1, 1, 3, 3, 0 — writes for the
first 1 (during initialization), the change to 3 and the change to 0;
none for the repeated values. -/
theorem c1_write_iff_change_witness :
    monitorTickWrites
        (initialize_monitoring ⟨some 0, none, false, true, false⟩ (.ok 1)
          WriteRes.okWrite).1
        [(.ok 1, .okWrite), (.ok 3, .okWrite), (.ok 3, .okWrite),
         (.ok 0, .okWrite)] =
      claimedWrites 1
        ([((.ok 1 : ReadRes Int), (WriteRes.okWrite : WriteRes)),
          (.ok 3, .okWrite), (.ok 3, .okWrite), (.ok 0, .okWrite)].map
          Prod.fst) ∧
    (initialize_monitoring ⟨some 0, none, false, true, false⟩
        ReadRes.noObject WriteRes.okWrite).2.2.2 = [] :=
  ⟨(c1_write_iff_change 0 none true false 1 .okWrite
      [(.ok 1, .okWrite), (.ok 3, .okWrite), (.ok 3, .okWrite),
       (.ok 0, .okWrite)]).2.2,
   (c1_write_iff_change 0 none true false 1 .okWrite []).2.1
     .noObject rfl⟩

/-! ### Episode log-counting lemmas -/

theorem runTicks_cons
    (f : CState → ReadRes Int → WriteRes →
      CState × Bool × List LogEvent × List Effect)
    (s : CState) (r : ReadRes Int) (w : WriteRes)
    (rest : List (ReadRes Int × WriteRes)) :
    runTicks f s ((r, w) :: rest) =
      ((runTicks f (f s r w).1 rest).1,
       (f s r w).2.2.1 ++ (runTicks f (f s r w).1 rest).2) := rfl

theorem runTicks_init_episode_end (n : Nat) (p : Option Int) (rf : Bool)
    (v : Int) (w : WriteRes) :
    ∀ fs : List (ReadRes Int × WriteRes),
      (∀ x ∈ fs, (get_dbus_value x.1).1 = none) →
      (runTicks initialize_monitoring ⟨some n, p, false, rf, true⟩
          (fs ++ [(.ok v, w)])).2.countP isUnavailWarning = 0 ∧
      (runTicks initialize_monitoring ⟨some n, p, false, rf, true⟩
          (fs ++ [(.ok v, w)])).2.countP isRecoveryNote = 1 := by
  intro fs
  induction fs with
  | nil =>
    intro _
    rw [List.nil_append, runTicks_cons, initializer_ok_eq]
    simp [runTicks, List.countP_append, List.countP_cons,
      isUnavailWarning, isRecoveryNote,
      (set_relay_state_log_counts (some n)
        (relay_command (interpret_ac_source v)) w).1,
      (set_relay_state_log_counts (some n)
        (relay_command (interpret_ac_source v)) w).2]
  | cons x fs' ih =>
    intro hf
    obtain ⟨r0, w0⟩ := x
    have hr0 : (get_dbus_value r0).1 = none :=
      hf (r0, w0) (List.mem_cons_self _ _)
    have ih' := ih (fun y hy => hf y (List.mem_cons_of_mem _ hy))
    rw [List.cons_append, runTicks_cons,
      initializer_fail_eq n p rf true r0 w0 hr0]
    simp [List.countP_append, (get_dbus_value_log_counts r0).1,
      (get_dbus_value_log_counts r0).2, ih'.1, ih'.2]

theorem runTicks_monitor_episode_end (n : Nat) (p2 : Int) (rf : Bool)
    (v : Int) (w : WriteRes) :
    ∀ fs : List (ReadRes Int × WriteRes),
      (∀ x ∈ fs, (get_dbus_value x.1).1 = none) →
      (runTicks monitor_ac_input_source ⟨some n, some p2, true, rf, true⟩
          (fs ++ [(.ok v, w)])).2.countP isUnavailWarning = 0 ∧
      (runTicks monitor_ac_input_source ⟨some n, some p2, true, rf, true⟩
          (fs ++ [(.ok v, w)])).2.countP isRecoveryNote = 1 := by
  intro fs
  induction fs with
  | nil =>
    intro _
    rw [List.nil_append, runTicks_cons, monitor_ok_eq]
    by_cases hv : v = p2 <;>
      simp [runTicks, hv, List.countP_append, List.countP_cons,
        isUnavailWarning, isRecoveryNote,
        (set_relay_state_log_counts (some n)
          (relay_command (interpret_ac_source v)) w).1,
        (set_relay_state_log_counts (some n)
          (relay_command (interpret_ac_source v)) w).2]
  | cons x fs' ih =>
    intro hf
    obtain ⟨r0, w0⟩ := x
    have hr0 : (get_dbus_value r0).1 = none :=
      hf (r0, w0) (List.mem_cons_self _ _)
    have ih' := ih (fun y hy => hf y (List.mem_cons_of_mem _ hy))
    rw [List.cons_append, runTicks_cons,
      monitor_fail_eq n (some p2) rf true r0 w0 hr0]
    simp [List.countP_append, (get_dbus_value_log_counts r0).1,
      (get_dbus_value_log_counts r0).2, ih'.1, ih'.2]

/-- Claim C4: over an unavailability episode — a nonempty run of failed AC
source reads followed by the read that succeeds again — exactly one
unavailability warning is logged (hence at most one) and exactly one
recovery note is logged, both in the initializer and in the monitor,
regardless of the episode's length. -/
theorem c4_episode_logs (n : Nat) (p : Option Int) (p2 : Int) (rf : Bool)
    (fs : List (ReadRes Int × WriteRes)) (v : Int) (w : WriteRes)
    (hne : fs ≠ []) (hf : ∀ x ∈ fs, (get_dbus_value x.1).1 = none) :
    ((runTicks initialize_monitoring ⟨some n, p, false, rf, false⟩
        (fs ++ [(.ok v, w)])).2.countP isUnavailWarning = 1 ∧
     (runTicks initialize_monitoring ⟨some n, p, false, rf, false⟩
        (fs ++ [(.ok v, w)])).2.countP isRecoveryNote = 1) ∧
    ((runTicks monitor_ac_input_source ⟨some n, some p2, true, rf, false⟩
        (fs ++ [(.ok v, w)])).2.countP isUnavailWarning = 1 ∧
     (runTicks monitor_ac_input_source ⟨some n, some p2, true, rf, false⟩
        (fs ++ [(.ok v, w)])).2.countP isRecoveryNote = 1) := by
  cases fs with
  | nil => exact absurd rfl hne
  | cons x fs' =>
    obtain ⟨r0, w0⟩ := x
    have hr0 : (get_dbus_value r0).1 = none :=
      hf (r0, w0) (List.mem_cons_self _ _)
    have hf' : ∀ y ∈ fs', (get_dbus_value y.1).1 = none :=
      fun y hy => hf y (List.mem_cons_of_mem _ hy)
    have hinit := runTicks_init_episode_end n p rf v w fs' hf'
    have hmon := runTicks_monitor_episode_end n p2 rf v w fs' hf'
    constructor
    · rw [List.cons_append, runTicks_cons,
        initializer_fail_eq n p rf false r0 w0 hr0]
      simp [List.countP_append, List.countP_cons,
        (get_dbus_value_log_counts r0).1, (get_dbus_value_log_counts r0).2,
        isUnavailWarning, isRecoveryNote, hinit.1, hinit.2]
    · rw [List.cons_append, runTicks_cons,
        monitor_fail_eq n (some p2) rf false r0 w0 hr0]
      simp [List.countP_append, List.countP_cons,
        (get_dbus_value_log_counts r0).1, (get_dbus_value_log_counts r0).2,
        isUnavailWarning, isRecoveryNote, hmon.1, hmon.2]

/-- Witness for C4: a two-tick outage then recovery, in both components. -/
theorem c4_episode_logs_witness :
    ((runTicks initialize_monitoring ⟨some 0, none, false, true, false⟩
        ([((ReadRes.noObject : ReadRes Int), (WriteRes.okWrite : WriteRes)),
          (.getFailed, .okWrite)] ++ [(.ok 1, .okWrite)])).2.countP
        isUnavailWarning = 1 ∧
     (runTicks initialize_monitoring ⟨some 0, none, false, true, false⟩
        ([((ReadRes.noObject : ReadRes Int), (WriteRes.okWrite : WriteRes)),
          (.getFailed, .okWrite)] ++ [(.ok 1, .okWrite)])).2.countP
        isRecoveryNote = 1) ∧
    ((runTicks monitor_ac_input_source ⟨some 0, some 5, true, true, false⟩
        ([((ReadRes.noObject : ReadRes Int), (WriteRes.okWrite : WriteRes)),
          (.getFailed, .okWrite)] ++ [(.ok 1, .okWrite)])).2.countP
        isUnavailWarning = 1 ∧
     (runTicks monitor_ac_input_source ⟨some 0, some 5, true, true, false⟩
        ([((ReadRes.noObject : ReadRes Int), (WriteRes.okWrite : WriteRes)),
          (.getFailed, .okWrite)] ++ [(.ok 1, .okWrite)])).2.countP
        isRecoveryNote = 1) :=
  c4_episode_logs 0 none 5 true
    [(.noObject, .okWrite), (.getFailed, .okWrite)] 1 .okWrite
    (by decide) (by decide)

/-- Witness for C9: a locate-then-initialize run reaches a state with the
initial state set and a located relay. -/
theorem c9_located_before_set_witness :
    (runSteps initState [TickInput.locator (fun _ => ReadRes.ok "AC WH"),
        TickInput.initializer (ReadRes.ok 1) WriteRes.okWrite]).initial_state_set =
      true ∧
    (runSteps initState [TickInput.locator (fun _ => ReadRes.ok "AC WH"),
        TickInput.initializer (ReadRes.ok 1) WriteRes.okWrite]).water_heater_relay_number ≠
      none := by
  have h1 : (runSteps initState [TickInput.locator (fun _ => ReadRes.ok "AC WH"),
      TickInput.initializer (ReadRes.ok 1) WriteRes.okWrite]).initial_state_set =
      true := by decide
  exact ⟨h1, c9_located_before_set _ h1⟩

end AutoSwitch
